import Mathlib

/-!
Shallow embedding of the slack-block-kit document model
(`src/compose.rs`, `src/blocks/{mod,actions,context,input}.rs`,
`src/elems/checkboxes.rs`, `src/elems/select/multi/{user,conversation}.rs`,
`src/block_elements/select.rs`), together with the validation semantics of
the `validator` derive as used by those files (all attached field errors are
collected, keyed by field name, in field declaration order; `Option` fields
are skipped when `None`).  Rust strings are modelled by `String`, `Vec`/slices
by `List`, fallible conversions by `Except`, and a Rust panic by `Option.none`
in the function's result.
-/

namespace SlackBlocks

/-- One constraint failure.  Models `validator::ValidationError`: a constraint
code plus an optional human message (the derive's built-in checks leave the
message empty, `val_helpr::error` fills it). -/
structure ValidationError where
  code : String
  message : Option String
deriving DecidableEq

namespace val_helpr

/-- Modelled from the spec: `src/val_helpr.rs` is not under `src/` here (only
its callers are).  Per its uses in `compose.rs` it builds a `ValidationError`
from a constraint code and a message string. -/
def error (code : String) (message : String) : ValidationError :=
  { code := code, message := some message }

end val_helpr

/-- The aggregated report of `validator::ValidationErrors`: violations keyed
by the offending field's name, collected in field declaration order. -/
def ValidationErrors := List (String × ValidationError)

/-- `Result<(), ValidationErrors>` of `src/val_helpr.rs` / `blocks/mod.rs`. -/
def ValidationResult := Except (List (String × ValidationError)) Unit

/-- `Result<(), ValidationError>` (a single constraint's outcome). -/
def ValidatorResult := Except ValidationError Unit

/-- Wrap a list of collected per-field violations into the overall result:
the derived `validate` succeeds exactly when no field produced a violation. -/
def finishValidate (errs : List (String × ValidationError)) : ValidationResult :=
  if errs.isEmpty then Except.ok () else Except.error errs

/-- Contribution of one checked field: a failing constraint adds one violation
keyed by the field's name, a passing one adds nothing. -/
def fieldErr (field : String) : Except ValidationError Unit → List (String × ValidationError)
  | Except.ok () => []
  | Except.error e => [(field, e)]

/-- The derive's built-in `length(max = n)` check on a string field
(`validator` counts characters, as does `String.length` here). -/
def lengthMax (maxLen : Nat) (s : String) : Except ValidationError Unit :=
  if s.length > maxLen then Except.error { code := "length", message := none }
  else Except.ok ()

/-- `length(max = n)` on a collection field counts elements. -/
def lengthMaxList {α : Type} (maxLen : Nat) (l : List α) : Except ValidationError Unit :=
  if l.length > maxLen then Except.error { code := "length", message := none }
  else Except.ok ()

/-- The derive's `range(min = 1)` check on a numeric field. -/
def rangeMin1 (n : Nat) : Except ValidationError Unit :=
  if n < 1 then Except.error { code := "range", message := none }
  else Except.ok ()

/-- A check attached to an `Option` field is skipped when the field is
absent (`validator` semantics for `Option`-typed fields). -/
def onOpt {α : Type} (check : α → Except ValidationError Unit) :
    Option α → Except ValidationError Unit
  | none => Except.ok ()
  | some a => check a

/-- `compose::Text` (`src/compose.rs`): text formatted either as `mrkdwn`
(fields `text`, `verbatim`) or as `plain_text` (fields `text`, `emoji`). -/
inductive Text
  | Markdown (text : String) (verbatim : Option Bool)
  | Plain (text : String) (emoji : Option Bool)
deriving DecidableEq

/-- `Text::text` (`src/compose.rs`): the inner text of either variant. -/
def Text.text : Text → String
  | Text.Plain t _ => t
  | Text.Markdown t _ => t

/-- `Text::plain` (`src/compose.rs`). -/
def Text.plain (s : String) : Text := Text.Plain s none

/-- `Text::markdown` (`src/compose.rs`). -/
def Text.markdown (s : String) : Text := Text.Markdown s none

namespace compose

namespace validation

/-- `compose::validation::text_is_plain` (`src/compose.rs`). -/
def text_is_plain (t : Text) : Except ValidationError Unit :=
  match t with
  | Text.Markdown _ _ =>
      Except.error (val_helpr.error "text_is_plain" "expected plain, got markdown")
  | Text.Plain _ _ => Except.ok ()

/-- `compose::validation::text_max_len` (`src/compose.rs`): counts the
characters of the inner text and fails when the count exceeds `max_len`. -/
def text_max_len (t : Text) (max_len : Nat) : Except ValidationError Unit :=
  let len := t.text.length
  if len > max_len then
    Except.error (val_helpr.error "text_max_len"
      s!"Section#text has max len of {max_len}, but got text of len {len}.")
  else
    Except.ok ()

end validation

/-- `compose::Compose` (`src/compose.rs`): the general composition-object
family.  `Text` is its only variant. -/
inductive Compose
  | Text (t : SlackBlocks.Text)
deriving DecidableEq

end compose

namespace block_elements

namespace select

/-- `block_elements::select::Conversation` (`src/block_elements/select/mod.rs`):
a select menu over the conversation list; the struct carries no fields. -/
structure Conversation where
deriving DecidableEq

/-- Modelled from the spec: `src/block_elements/select/public_channel.rs` is not
under `src/` (only `select/mod.rs` re-exports it).  Per the builder interface
`Select::from_placeholder_and_action_id` it carries a placeholder text and an
action id. -/
structure PublicChannel where
  placeholder : Text
  action_id : String
deriving DecidableEq

end select

/-- Modelled from the spec: the `Button` element's file is not under `src/`
(only its callers are).  Per `Button::from_text_and_action_id` in the
`blocks/actions.rs` doc examples it carries a text and an action id. -/
structure Button where
  text : String
  action_id : String
deriving DecidableEq

/-- Modelled from the spec: `src/block_elements/mod.rs` (the general
`BlockElement` family) is not under `src/`; only its caller
`blocks/actions.rs` is.  The eight kinds matched by name in
`TryFrom<block_elements::BlockElement> for actions::BlockElement` are taken
from that match; the spec requires the general family to also contain kinds
outside the Actions block's accepted set (its narrowing has a catch-all
error arm, and the spec's narrowing-rejection property needs such kinds), so
the non-interactive `Image` element and the `MultiSelect` element are
included as out-of-family members. -/
inductive BlockElement
  | Button (b : block_elements.Button)
  | Checkboxes
  | DatePicker
  | OverflowMenu
  | PlainInput
  | RadioButtons
  | SelectPublicChannel (s : select.PublicChannel)
  | SelectConversation (s : select.Conversation)
  | Image
  | MultiSelect
deriving DecidableEq

end block_elements

namespace actions

/-- `blocks::actions::BlockElement` (`src/blocks/actions.rs`): the element
kinds supported inside an Actions block. -/
inductive BlockElement
  | Button (b : block_elements.Button)
  | Checkboxes
  | DatePicker
  | OverflowMenu
  | PlainInput
  | RadioButtons
  | SelectPublicChannel (s : block_elements.select.PublicChannel)
  | SelectConversation (s : block_elements.select.Conversation)
deriving DecidableEq

/-- `TryFrom<block_elements::BlockElement> for actions::BlockElement`
(`src/blocks/actions.rs`): narrowing into the Actions family; the error type
is the unit type `()`. -/
def BlockElement.tryFrom : block_elements.BlockElement → Except Unit BlockElement
  | block_elements.BlockElement.SelectPublicChannel sel =>
      Except.ok (BlockElement.SelectPublicChannel sel)
  | block_elements.BlockElement.SelectConversation sel =>
      Except.ok (BlockElement.SelectConversation sel)
  | block_elements.BlockElement.OverflowMenu => Except.ok BlockElement.OverflowMenu
  | block_elements.BlockElement.RadioButtons => Except.ok BlockElement.RadioButtons
  | block_elements.BlockElement.Button cts => Except.ok (BlockElement.Button cts)
  | block_elements.BlockElement.PlainInput => Except.ok BlockElement.PlainInput
  | block_elements.BlockElement.Checkboxes => Except.ok BlockElement.Checkboxes
  | block_elements.BlockElement.DatePicker => Except.ok BlockElement.DatePicker
  | _ => Except.error ()

/-- Modelled from the spec: the widening injection from the Actions family
back into the general element family (spec 4.2, total and structural); the
impl lives in the missing `block_elements/mod.rs`.  Each restricted kind maps
to the general variant of the same name. -/
def BlockElement.widen : BlockElement → block_elements.BlockElement
  | BlockElement.Button b => block_elements.BlockElement.Button b
  | BlockElement.Checkboxes => block_elements.BlockElement.Checkboxes
  | BlockElement.DatePicker => block_elements.BlockElement.DatePicker
  | BlockElement.OverflowMenu => block_elements.BlockElement.OverflowMenu
  | BlockElement.PlainInput => block_elements.BlockElement.PlainInput
  | BlockElement.RadioButtons => block_elements.BlockElement.RadioButtons
  | BlockElement.SelectPublicChannel s => block_elements.BlockElement.SelectPublicChannel s
  | BlockElement.SelectConversation s => block_elements.BlockElement.SelectConversation s

/-- `blocks::actions::Contents` (`src/blocks/actions.rs`): at most 5 elements,
optional `block_id` of at most 255 characters (`block_id` carries
`skip_serializing_if = "Option::is_none"`). -/
structure Contents where
  elements : List BlockElement
  block_id : Option String
deriving DecidableEq

/-- `Default` for `actions::Contents` (derived in the source): empty element
list, absent `block_id`. -/
def Contents.default : Contents := { elements := [], block_id := none }

/-- `actions::Contents::new` (`src/blocks/actions.rs`). -/
def Contents.new : Contents := Contents.default

/-- `actions::Contents::with_block_id` (`src/blocks/actions.rs`). -/
def Contents.with_block_id (c : Contents) (block_id : String) : Contents :=
  { c with block_id := some block_id }

/-- `From<Vec<actions::BlockElement>> for actions::Contents`
(`src/blocks/actions.rs`): the given elements with the remaining fields
defaulted. -/
def Contents.fromElements (elements : List BlockElement) : Contents :=
  { elements := elements, block_id := none }

/-- `actions::Contents::from_action_elements` (`src/blocks/actions.rs`). -/
def Contents.from_action_elements (elements : List BlockElement) : Contents :=
  Contents.fromElements elements

/-- `Iterator::collect::<Result<Vec<_>, _>>` over the per-element narrowing:
left-to-right, stopping at the first error. -/
def collectTryFrom : List block_elements.BlockElement → Except Unit (List BlockElement)
  | [] => Except.ok []
  | e :: rest =>
      match BlockElement.tryFrom e with
      | Except.error err => Except.error err
      | Except.ok a =>
          match collectTryFrom rest with
          | Except.error err => Except.error err
          | Except.ok as' => Except.ok (a :: as')

/-- `TryFrom<Vec<block_elements::BlockElement>> for actions::Contents`
(`src/blocks/actions.rs`): narrow each element, short-circuiting on the
first failure, then build the contents from the narrowed list. -/
def Contents.tryFromVec (elements : List block_elements.BlockElement) :
    Except Unit Contents :=
  (collectTryFrom elements).map Contents.fromElements

/-- `actions::Contents::from_elements` (`src/blocks/actions.rs`): delegates
to the `TryFrom<Vec<_>>` conversion. -/
def Contents.from_elements (elements : List block_elements.BlockElement) :
    Except Unit Contents :=
  Contents.tryFromVec elements

/-- `actions::Contents::validate` (`src/blocks/actions.rs`), per the derive:
`elements` checked by `length(max = 5)`, `block_id` (when present) by
`length(max = 255)`; all violations collected. -/
def Contents.validate (c : Contents) : ValidationResult :=
  finishValidate
    (fieldErr "elements" (lengthMaxList 5 c.elements) ++
     fieldErr "block_id" (onOpt (lengthMax 255) c.block_id))

end actions

namespace context

/-- `blocks::context::Compose` (`src/blocks/context.rs`): the composition
objects supported by a Context block. -/
inductive Compose
  | Text (t : SlackBlocks.Text)
  | Image
deriving DecidableEq

/-- `blocks::context::UnsupportedComposeError` (`src/blocks/context.rs`): a
newtype over a vector of the offending general composition objects. -/
structure UnsupportedComposeError where
  offending : List compose.Compose
deriving DecidableEq

/-- `From<compose::Compose> for UnsupportedComposeError`
(`src/blocks/context.rs`): wraps the one offending object. -/
def UnsupportedComposeError.fromCompose (comp : compose.Compose) :
    UnsupportedComposeError :=
  { offending := [comp] }

/-- `TryFrom<compose::Compose> for context::Compose` (`src/blocks/context.rs`).
The source also has a catch-all arm `rest => Err(UnsupportedComposeError::from(rest))`,
which is unreachable because `Text` is the only variant of `compose::Compose`. -/
def Compose.tryFrom (comp : compose.Compose) :
    Except UnsupportedComposeError Compose :=
  match comp with
  | compose.Compose.Text txt => Except.ok (Compose.Text txt)

/-- `blocks::context::Contents` (`src/blocks/context.rs`): at most 10
elements, optional `block_id` of at most 255 characters.  Neither field has
a `skip_serializing_if` attribute. -/
structure Contents where
  elements : List Compose
  block_id : Option String
deriving DecidableEq

/-- `Default` for `context::Contents` (derived in the source). -/
def Contents.default : Contents := { elements := [], block_id := none }

/-- `context::Contents::new` (`src/blocks/context.rs`). -/
def Contents.new : Contents := Contents.default

/-- `context::Contents::with_block_id` (`src/blocks/context.rs`). -/
def Contents.with_block_id (c : Contents) (block_id : String) : Contents :=
  { c with block_id := some block_id }

/-- `From<Vec<context::Compose>> for context::Contents`
(`src/blocks/context.rs`): the given elements, other fields defaulted. -/
def Contents.fromComposeVec (elements : List Compose) : Contents :=
  { elements := elements, block_id := none }

/-- `Iterator::collect::<Result<Vec<_>, _>>` over the per-element narrowing
into the Context family: left-to-right, stopping at the first error. -/
def collectTryFrom : List compose.Compose → Except UnsupportedComposeError (List Compose)
  | [] => Except.ok []
  | e :: rest =>
      match Compose.tryFrom e with
      | Except.error err => Except.error err
      | Except.ok a =>
          match collectTryFrom rest with
          | Except.error err => Except.error err
          | Except.ok as' => Except.ok (a :: as')

/-- `context::Contents::from_elements` (`src/blocks/context.rs`): narrow each
general composition object into the Context family, short-circuiting on the
first failure, then build the contents. -/
def Contents.from_elements (elements : List compose.Compose) :
    Except UnsupportedComposeError Contents :=
  (collectTryFrom elements).map Contents.fromComposeVec

/-- `context::Contents::with_element` (`src/blocks/context.rs`): pushes the
element onto the existing `elements` vector. -/
def Contents.with_element (c : Contents) (element : Compose) : Contents :=
  { c with elements := c.elements ++ [element] }

/-- `context::Contents::from_context_elements` (`src/blocks/context.rs`). -/
def Contents.from_context_elements (elements : List Compose) : Contents :=
  Contents.fromComposeVec elements

/-- `context::Contents::validate` (`src/blocks/context.rs`), per the derive:
`elements` checked by `length(max = 10)`, `block_id` (when present) by
`length(max = 255)`; all violations collected. -/
def Contents.validate (c : Contents) : ValidationResult :=
  finishValidate
    (fieldErr "elements" (lengthMaxList 10 c.elements) ++
     fieldErr "block_id" (onOpt (lengthMax 255) c.block_id))

end context

namespace block_elements

namespace select

/-- `block_elements::select::Contents` (`src/block_elements/select.rs`): the
select-menu kinds; each payload struct (`Static`, `External`, `User`,
`Conversation`, `Channel`) is declared with no fields in that file, so the
variants are modelled as nullary. -/
inductive Contents
  | Static
  | External
  | User
  | Conversation
  | Channel
deriving DecidableEq

end select

end block_elements

namespace input

/-- `blocks::input::InputElement` (`src/blocks/input.rs`): element kinds
supported by an Input block. -/
inductive InputElement
  | Checkboxes
  | DatePicker
  | MultiSelect
  | Select (contents : block_elements.select.Contents)
  | PlainInput
  | RadioButtons
deriving DecidableEq

namespace validation

/-- `blocks::input::validation::text_max_len_2k` (`src/blocks/input.rs`):
delegates to `compose::validation::text_max_len` with a limit of 2000. -/
def text_max_len_2k (t : Text) : Except ValidationError Unit :=
  compose.validation.text_max_len t 2000

end validation

/-- `blocks::input::Contents` (`src/blocks/input.rs`): a required `label`
(custom check `text_max_len_2k`), a required `element` (no check), an
optional `block_id` (`length(max = 255)`), an optional `hint`
(`text_max_len_2k`), and an optional `optional`.  None of the fields has a
`skip_serializing_if` attribute. -/
structure Contents where
  label : Text
  element : InputElement
  block_id : Option String
  hint : Option Text
  optional : Option Bool
deriving DecidableEq

/-- `input::Contents::from_label_and_element` (`src/blocks/input.rs`). -/
def Contents.from_label_and_element (label : Text) (element : InputElement) :
    Contents :=
  { label := label, element := element, block_id := none, hint := none,
    optional := none }

/-- `input::Contents::with_block_id` (`src/blocks/input.rs`). -/
def Contents.with_block_id (c : Contents) (block_id : String) : Contents :=
  { c with block_id := some block_id }

/-- `input::Contents::with_hint` (`src/blocks/input.rs`). -/
def Contents.with_hint (c : Contents) (hint : Text) : Contents :=
  { c with hint := some hint }

/-- `input::Contents::with_optional` (`src/blocks/input.rs`). -/
def Contents.with_optional (c : Contents) (optionality : Bool) : Contents :=
  { c with optional := some optionality }

/-- `input::Contents::validate` (`src/blocks/input.rs`), per the derive, in
field declaration order: `label` by `text_max_len_2k`, `element` unchecked,
`block_id` (when present) by `length(max = 255)`, `hint` (when present) by
`text_max_len_2k`, `optional` unchecked; all violations collected. -/
def Contents.validate (c : Contents) : ValidationResult :=
  finishValidate
    (fieldErr "label" (validation.text_max_len_2k c.label) ++
     fieldErr "block_id" (onOpt (lengthMax 255) c.block_id) ++
     fieldErr "hint" (onOpt validation.text_max_len_2k c.hint))

end input

namespace sectionBlock

/-- Modelled from the spec: `src/blocks/section.rs` is not under `src/` (only
`blocks/mod.rs` declares the module and dispatches to it).  Per the sibling
`blocks.rs` (`Block::Section { text }` and its test expecting a 3001-character
text to fail validation) it carries a text field checked against a
3000-character limit. -/
structure Contents where
  text : Text
deriving DecidableEq

/-- Modelled from the spec: `section::Contents::validate`, a total in-memory
check of the text length (spec 4.4: `validate(node) -> Result<(), Report>`). -/
def Contents.validate (c : Contents) : ValidationResult :=
  finishValidate
    (fieldErr "text" (compose.validation.text_max_len c.text 3000))

end sectionBlock

namespace image

/-- Modelled from the spec: `src/blocks/image.rs` is not under `src/`.  Per
spec 4.1 every block declares an optional `block_id` bounded at 255
characters, so the block is modelled with that field. -/
structure Contents where
  block_id : Option String
deriving DecidableEq

/-- Modelled from the spec: `image::Contents::validate`, a total in-memory
check (spec 4.4). -/
def Contents.validate (c : Contents) : ValidationResult :=
  finishValidate (fieldErr "block_id" (onOpt (lengthMax 255) c.block_id))

end image

namespace file

/-- Modelled from the spec: `src/blocks/file.rs` is not under `src/`.  Per
spec 4.1 every block declares an optional `block_id` bounded at 255
characters, so the block is modelled with that field. -/
structure Contents where
  block_id : Option String
deriving DecidableEq

/-- Modelled from the spec: `file::Contents::validate`, a total in-memory
check (spec 4.4). -/
def Contents.validate (c : Contents) : ValidationResult :=
  finishValidate (fieldErr "block_id" (onOpt (lengthMax 255) c.block_id))

end file

/-- `blocks::Block` (`src/blocks/mod.rs`): the top-level block family. -/
inductive Block
  | Section (contents : sectionBlock.Contents)
  | Divider
  | Image (contents : image.Contents)
  | Actions (contents : actions.Contents)
  | Context (contents : context.Contents)
  | Input (contents : input.Contents)
  | File (contents : file.Contents)
deriving DecidableEq

/-- `Block::validate` (`src/blocks/mod.rs`).  The match dispatches to the
payload's `validate` for `Section`, `Image`, `Actions`, `Context`, `Input`
and `File`; every remaining variant — `Divider` is the only one — falls into
the catch-all arm `other => todo!(...)`, which panics at runtime.  The panic
is modelled as `none`. -/
def Block.validate : Block → Option ValidationResult
  | Block.Section contents => some contents.validate
  | Block.Image contents => some contents.validate
  | Block.Actions contents => some contents.validate
  | Block.Context contents => some contents.validate
  | Block.Input contents => some contents.validate
  | Block.File contents => some contents.validate
  | Block.Divider => none

namespace elems

/-- Modelled from the spec: `compose::Confirm`'s file is not under `src/`
(only fields of that type are).  No constraints of its own are modelled, so
its nested validation contributes no violations. -/
structure Confirm where
deriving DecidableEq

/-- Modelled from the spec: nested `#[validate]` on a `Confirm` field; with no
modelled constraints the contribution is empty. -/
def Confirm.validateErrors (_ : Confirm) : List (String × ValidationError) := []

namespace checkboxes

/-- Modelled from the spec: `compose::Opt`'s file is not under `src/`.  Per
the doc examples (`Opt::builder().text_plain("foo").value("bar").build()`) it
carries a text object and a value string. -/
structure Opt where
  text : Text
  value : String
deriving DecidableEq

/-- `elems::Checkboxes` (`src/elems/checkboxes.rs`): required `action_id`
(at most 255 characters) and `options` (at most 10), optional
`initial_options` (at most 10) and `confirm`. -/
structure Checkboxes where
  action_id : String
  options : List Opt
  initial_options : Option (List Opt)
  confirm : Option Confirm
deriving DecidableEq

namespace build

/-- The type-state marker of `src/build.rs` as used by the checkbox builder:
either the required method has not been called yet
(`RequiredMethodNotCalled<m>`) or it has (`Set<m>`). -/
inductive Marker
  | RequiredMethodNotCalled
  | Set
deriving DecidableEq

/-- `build::CheckboxesBuilder<'a, A, O>` (`src/elems/checkboxes.rs`): the
staged builder.  `A` tracks the `action_id` method, `O` the `options`
method; the data fields do not depend on the markers (they are
`PhantomData` in the source). -/
structure CheckboxesBuilder (A O : Marker) where
  action_id : Option String
  options : Option (List Opt)
  initial_options : Option (List Opt)
  confirm : Option Confirm
deriving DecidableEq

/-- `CheckboxesBuilder::new` (`src/elems/checkboxes.rs`): every field
`None`, both markers in the not-called state. -/
def CheckboxesBuilder.new :
    CheckboxesBuilder Marker.RequiredMethodNotCalled Marker.RequiredMethodNotCalled :=
  { action_id := none, options := none, initial_options := none, confirm := none }

/-- `CheckboxesBuilder::action_id` (`src/elems/checkboxes.rs`): sets the
field and moves the `A` marker to `Set`. -/
def CheckboxesBuilder.setActionId {A O : Marker} (b : CheckboxesBuilder A O)
    (s : String) : CheckboxesBuilder Marker.Set O :=
  { action_id := some s, options := b.options,
    initial_options := b.initial_options, confirm := b.confirm }

/-- `CheckboxesBuilder::options` (`src/elems/checkboxes.rs`): the bulk
setter; replaces the whole collection and moves the `O` marker to `Set`. -/
def CheckboxesBuilder.setOptions {A O : Marker} (b : CheckboxesBuilder A O)
    (os : List Opt) : CheckboxesBuilder A Marker.Set :=
  { action_id := b.action_id, options := some os,
    initial_options := b.initial_options, confirm := b.confirm }

/-- `CheckboxesBuilder::option` (`src/elems/checkboxes.rs`): the append-one
setter; pushes onto the existing collection when one is set, otherwise
starts a one-element collection; moves the `O` marker to `Set`. -/
def CheckboxesBuilder.addOption {A O : Marker} (b : CheckboxesBuilder A O)
    (o : Opt) : CheckboxesBuilder A Marker.Set :=
  { action_id := b.action_id,
    options := some (match b.options with
      | some os => os ++ [o]
      | none => [o]),
    initial_options := b.initial_options, confirm := b.confirm }

/-- `CheckboxesBuilder::initial_options` (`src/elems/checkboxes.rs`):
optional setter; markers unchanged. -/
def CheckboxesBuilder.setInitialOptions {A O : Marker} (b : CheckboxesBuilder A O)
    (os : List Opt) : CheckboxesBuilder A O :=
  { b with initial_options := some os }

/-- `CheckboxesBuilder::confirm` (`src/elems/checkboxes.rs`): optional
setter; markers unchanged. -/
def CheckboxesBuilder.setConfirm {A O : Marker} (b : CheckboxesBuilder A O)
    (c : Confirm) : CheckboxesBuilder A O :=
  { b with confirm := some c }

/-- `CheckboxesBuilder::build` (`src/elems/checkboxes.rs`): only declared on
the fully-set state `CheckboxesBuilder<Set<action_id>, Set<options>>`.  The
source unwraps `action_id` and `options`; an unwrap of `None` panics, which
is modelled as `none`. -/
def CheckboxesBuilder.build (b : CheckboxesBuilder Marker.Set Marker.Set) :
    Option Checkboxes :=
  match b.action_id, b.options with
  | some a, some o =>
      some { action_id := a, options := o,
             initial_options := b.initial_options, confirm := b.confirm }
  | _, _ => none

/-- The construction sequences expressible through the public builder API
(`new` followed by chained setters, each consuming the builder), with `ca`
and `co` recording whether the required `action_id` and `options` setter
methods (`option` counts for `options`) have been called at least once. -/
inductive Traced : Bool → Bool → (A : Marker) → (O : Marker) →
    CheckboxesBuilder A O → Prop
  | new : Traced false false Marker.RequiredMethodNotCalled
      Marker.RequiredMethodNotCalled CheckboxesBuilder.new
  | action_id {ca co : Bool} {A O : Marker} (b : CheckboxesBuilder A O)
      (s : String) : Traced ca co A O b →
      Traced true co Marker.Set O (b.setActionId s)
  | options {ca co : Bool} {A O : Marker} (b : CheckboxesBuilder A O)
      (os : List Opt) : Traced ca co A O b →
      Traced ca true A Marker.Set (b.setOptions os)
  | option {ca co : Bool} {A O : Marker} (b : CheckboxesBuilder A O)
      (o : Opt) : Traced ca co A O b →
      Traced ca true A Marker.Set (b.addOption o)
  | initial_options {ca co : Bool} {A O : Marker} (b : CheckboxesBuilder A O)
      (os : List Opt) : Traced ca co A O b →
      Traced ca co A O (b.setInitialOptions os)
  | confirm {ca co : Bool} {A O : Marker} (b : CheckboxesBuilder A O)
      (c : Confirm) : Traced ca co A O b →
      Traced ca co A O (b.setConfirm c)

end build

end checkboxes

namespace select

/-- Modelled from the spec: `crate::elems::select::validate::placeholder` is
not under `src/` (only referenced from the validate attributes).  Per the
sibling doc comments ("If `placeholder` longer than 150 chars") it fails when
the placeholder text exceeds 150 characters. -/
def validatePlaceholder (t : Text) : Except ValidationError Unit :=
  if t.text.length > 150 then
    Except.error (val_helpr.error "placeholder" "placeholder longer than 150 chars")
  else Except.ok ()

/-- Modelled from the spec: `compose::ConversationFilter`'s file is not under
`src/`.  No constraints of its own are modelled, so its nested validation
contributes no violations. -/
structure ConversationFilter where
deriving DecidableEq

/-- Modelled from the spec: nested `#[validate]` on a `ConversationFilter`
field; with no modelled constraints the contribution is empty. -/
def ConversationFilter.validateErrors (_ : ConversationFilter) :
    List (String × ValidationError) := []

namespace multi

/-- Nested validation contribution of an optional `Confirm` field, keyed
under the field name as the derive does for nested structs. -/
def confirmFieldErrs : Option Confirm → List (String × ValidationError)
  | none => []
  | some c => (Confirm.validateErrors c).map (fun p => ("confirm." ++ p.1, p.2))

/-- Nested validation contribution of an optional `ConversationFilter`
field. -/
def filterFieldErrs : Option ConversationFilter → List (String × ValidationError)
  | none => []
  | some f => (ConversationFilter.validateErrors f).map (fun p => ("filter." ++ p.1, p.2))

/-- `elems::select::multi::User` (`src/elems/select/multi/user.rs`): the
user-list multi select.  `max_selected_items` is `Option<u32>` with
`range(min = 1)`. -/
structure User where
  placeholder : Text
  action_id : String
  confirm : Option Confirm
  initial_users : Option (List String)
  max_selected_items : Option Nat
deriving DecidableEq

/-- `multi::User::validate` (`src/elems/select/multi/user.rs`), per the
derive, in field declaration order: `placeholder` by the custom placeholder
check, `action_id` by `length(max = 255)`, `confirm` by nested validation,
`initial_users` unchecked, `max_selected_items` (when present) by
`range(min = 1)`; all violations collected. -/
def User.validate (u : User) : ValidationResult :=
  finishValidate
    (fieldErr "placeholder" (validatePlaceholder u.placeholder) ++
     fieldErr "action_id" (lengthMax 255 u.action_id) ++
     confirmFieldErrs u.confirm ++
     fieldErr "max_selected_items" (onOpt rangeMin1 u.max_selected_items))

/-- `elems::select::multi::Conversation`
(`src/elems/select/multi/conversation.rs`): the conversation-list multi
select.  `max_selected_items` is `Option<u32>` with `range(min = 1)`. -/
structure Conversation where
  placeholder : Text
  action_id : String
  confirm : Option Confirm
  initial_channels : Option (List String)
  default_to_current_conversation : Option Bool
  filter : Option ConversationFilter
  max_selected_items : Option Nat
deriving DecidableEq

/-- `multi::Conversation::validate` (`src/elems/select/multi/conversation.rs`),
per the derive, in field declaration order: `placeholder` by the custom
placeholder check, `action_id` by `length(max = 255)`, `confirm` by nested
validation, `initial_channels` and `default_to_current_conversation`
unchecked, `filter` by nested validation, `max_selected_items` (when present)
by `range(min = 1)`; all violations collected. -/
def Conversation.validate (c : Conversation) : ValidationResult :=
  finishValidate
    (fieldErr "placeholder" (validatePlaceholder c.placeholder) ++
     fieldErr "action_id" (lengthMax 255 c.action_id) ++
     confirmFieldErrs c.confirm ++
     filterFieldErrs c.filter ++
     fieldErr "max_selected_items" (onOpt rangeMin1 c.max_selected_items))

end multi

end select

end elems

/-- The field names of the violations a validation run reported (empty on
success). -/
def violationKeys : ValidationResult → List String
  | Except.ok () => []
  | Except.error errs => errs.map Prod.fst

/-- Whether a validation run failed. -/
def isErr : ValidationResult → Bool
  | Except.ok () => false
  | Except.error _ => true

/-- A JSON value, for modelling the serde serialization of the block
structs.  Object fields are an ordered list, as serde emits them. -/
inductive Json
  | null
  | bool (b : Bool)
  | str (s : String)
  | arr (elements : List Json)
  | obj (fields : List (String × Json))

/-- serde's serialization of an `Option` field that has no
`skip_serializing_if` attribute: `None` becomes JSON `null`. -/
def optJson {α : Type} (f : α → Json) : Option α → Json
  | none => Json.null
  | some a => f a

/-- serde serialization of `compose::Text` (`src/compose.rs`): internally
tagged with `tag = "type"`, variants renamed `mrkdwn` and `plain_text`; the
`Option` fields have no skip attribute and serialize as `null` when absent. -/
def Text.toJson : Text → Json
  | Text.Markdown text verbatim =>
      Json.obj [("type", Json.str "mrkdwn"), ("text", Json.str text),
                ("verbatim", optJson Json.bool verbatim)]
  | Text.Plain text emoji =>
      Json.obj [("type", Json.str "plain_text"), ("text", Json.str text),
                ("emoji", optJson Json.bool emoji)]

namespace block_elements

/-- serde serialization of the modelled `Button` (externally tagged payload
fields). -/
def Button.toJson (b : Button) : Json :=
  Json.obj [("text", Json.str b.text), ("action_id", Json.str b.action_id)]

/-- serde serialization of the modelled `select::PublicChannel`. -/
def select.PublicChannel.toJson (s : select.PublicChannel) : Json :=
  Json.obj [("placeholder", Text.toJson s.placeholder),
            ("action_id", Json.str s.action_id)]

/-- serde serialization of `select::Conversation`
(`src/block_elements/select/mod.rs`): an empty struct serializes as an empty
object. -/
def select.Conversation.toJson (_ : select.Conversation) : Json :=
  Json.obj []

end block_elements

namespace actions

/-- serde serialization of `actions::BlockElement` (`src/blocks/actions.rs`):
the enum has no serde attributes, so it is externally tagged — unit variants
become the variant-name string, payload variants a one-field object. -/
def BlockElement.toJson : BlockElement → Json
  | BlockElement.Button b => Json.obj [("Button", block_elements.Button.toJson b)]
  | BlockElement.Checkboxes => Json.str "Checkboxes"
  | BlockElement.DatePicker => Json.str "DatePicker"
  | BlockElement.OverflowMenu => Json.str "OverflowMenu"
  | BlockElement.PlainInput => Json.str "PlainInput"
  | BlockElement.RadioButtons => Json.str "RadioButtons"
  | BlockElement.SelectPublicChannel s =>
      Json.obj [("SelectPublicChannel", block_elements.select.PublicChannel.toJson s)]
  | BlockElement.SelectConversation s =>
      Json.obj [("SelectConversation", block_elements.select.Conversation.toJson s)]

/-- serde serialization of `actions::Contents` (`src/blocks/actions.rs`):
`elements` always emitted; `block_id` carries
`#[serde(skip_serializing_if = "Option::is_none")]`, so an absent `block_id`
is omitted entirely. -/
def Contents.toJson (c : Contents) : Json :=
  Json.obj (("elements", Json.arr (c.elements.map BlockElement.toJson)) ::
    (match c.block_id with
     | none => []
     | some s => [("block_id", Json.str s)]))

end actions

namespace context

/-- serde serialization of `context::Compose` (`src/blocks/context.rs`):
externally tagged. -/
def Compose.toJson : Compose → Json
  | Compose.Text t => Json.obj [("Text", Text.toJson t)]
  | Compose.Image => Json.str "Image"

/-- serde serialization of `context::Contents` (`src/blocks/context.rs`):
neither field has a serde attribute, so `block_id: None` is emitted as
`"block_id": null` rather than omitted. -/
def Contents.toJson (c : Contents) : Json :=
  Json.obj [("elements", Json.arr (c.elements.map Compose.toJson)),
            ("block_id", optJson Json.str c.block_id)]

end context

namespace input

/-- serde serialization of `block_elements::select::Contents`
(`src/block_elements/select.rs`): externally tagged newtype variants over
empty payload structs. -/
def selectContentsToJson : block_elements.select.Contents → Json
  | block_elements.select.Contents.Static => Json.obj [("Static", Json.obj [])]
  | block_elements.select.Contents.External => Json.obj [("External", Json.obj [])]
  | block_elements.select.Contents.User => Json.obj [("User", Json.obj [])]
  | block_elements.select.Contents.Conversation => Json.obj [("Conversation", Json.obj [])]
  | block_elements.select.Contents.Channel => Json.obj [("Channel", Json.obj [])]

/-- serde serialization of `input::InputElement` (`src/blocks/input.rs`):
externally tagged. -/
def InputElement.toJson : InputElement → Json
  | InputElement.Checkboxes => Json.str "Checkboxes"
  | InputElement.DatePicker => Json.str "DatePicker"
  | InputElement.MultiSelect => Json.str "MultiSelect"
  | InputElement.Select c => Json.obj [("Select", selectContentsToJson c)]
  | InputElement.PlainInput => Json.str "PlainInput"
  | InputElement.RadioButtons => Json.str "RadioButtons"

/-- serde serialization of `input::Contents` (`src/blocks/input.rs`): no
field has a serde attribute, so the absent optional fields `block_id`,
`hint` and `optional` are emitted as `null` rather than omitted. -/
def Contents.toJson (c : Contents) : Json :=
  Json.obj [("label", Text.toJson c.label),
            ("element", InputElement.toJson c.element),
            ("block_id", optJson Json.str c.block_id),
            ("hint", optJson Text.toJson c.hint),
            ("optional", optJson Json.bool c.optional)]

end input

/-- The keys of a serialized JSON object (empty for non-objects). -/
def Json.objKeys : Json → List String
  | Json.obj fields => fields.map Prod.fst
  | _ => []

/-- Whether a single constraint check failed. -/
def constraintFails : Except ValidationError Unit → Bool
  | Except.ok _ => false
  | Except.error _ => true

/-- C1: the claim says `Block::validate` is total on every variant of
`blocks::Block`, `Divider` included.  On the code, `Divider` is the one
variant not matched by a dispatch arm, so it falls into the catch-all
`todo!` arm and panics (modelled as `none`); every other variant delegates
to its payload's `validate` and returns a `Result`. -/
theorem c1_block_validate_panics_on_divider :
    Block.validate Block.Divider = none ∧
    ∀ b : Block, b ≠ Block.Divider → (Block.validate b).isSome = true := by
  refine ⟨rfl, ?_⟩
  intro b h
  cases b <;> simp [Block.validate] at h ⊢

/-- C1 witness: the panic value at `Divider`, and a concrete non-`Divider`
block on which `validate` does return a result. -/
theorem c1_block_validate_witness :
    Block.validate Block.Divider = none ∧
    (Block.validate (Block.Actions actions.Contents.new)).isSome = true :=
  ⟨c1_block_validate_panics_on_divider.1,
   c1_block_validate_panics_on_divider.2 (Block.Actions actions.Contents.new)
     (by simp)⟩

/-- C2 counterexample: two distinct out-of-family elements narrowed into the
Actions family produce the very same error value — the error type of
`TryFrom<block_elements::BlockElement> for actions::BlockElement` is the
unit type `()`, so the returned error carries no discriminant tag at all. -/
theorem c2_actions_error_carries_no_tag :
    actions.BlockElement.tryFrom block_elements.BlockElement.Image
      = Except.error () ∧
    actions.BlockElement.tryFrom block_elements.BlockElement.MultiSelect
      = Except.error () ∧
    actions.BlockElement.tryFrom block_elements.BlockElement.Image
      = actions.BlockElement.tryFrom block_elements.BlockElement.MultiSelect :=
  ⟨rfl, rfl, rfl⟩

/-- C2 amended: narrowing a general element fails exactly when its kind is
outside the container's accepted set, but only the Context family's error
type (`UnsupportedComposeError`) carries the offending element; the Actions
family's error is the unit value `()`, which carries nothing.  (For Context,
`Text` is the only general compose kind and it is accepted, so that
narrowing in fact never fails.) -/
theorem c2_narrow_fails_iff_out_of_family :
    (∀ e : block_elements.BlockElement,
      actions.BlockElement.tryFrom e = Except.error () ↔
        (e = block_elements.BlockElement.Image ∨
         e = block_elements.BlockElement.MultiSelect)) ∧
    (∀ c : compose.Compose,
      context.Compose.tryFrom c =
        Except.ok (match c with
          | compose.Compose.Text t => context.Compose.Text t)) ∧
    (∀ c : compose.Compose,
      (context.UnsupportedComposeError.fromCompose c).offending = [c]) := by
  refine ⟨?_, ?_, ?_⟩
  · intro e
    cases e <;> simp [actions.BlockElement.tryFrom]
  · intro c
    cases c
    rfl
  · intro c
    rfl

/-- C2 witness: the iff of the amended statement instantiated on both sides
at concrete elements — an out-of-family element fails, an in-family one
does not. -/
theorem c2_narrow_witness :
    actions.BlockElement.tryFrom block_elements.BlockElement.Image
      = Except.error () ∧
    ¬ actions.BlockElement.tryFrom block_elements.BlockElement.Checkboxes
      = Except.error () :=
  ⟨(c2_narrow_fails_iff_out_of_family.1 block_elements.BlockElement.Image).2
     (Or.inl rfl),
   fun h =>
     by simpa using (c2_narrow_fails_iff_out_of_family.1
       block_elements.BlockElement.Checkboxes).1 h⟩

/-- C5 counterexample: a Context block with no `block_id` serializes with an
explicit `"block_id": null` member — the field is emitted as `null`, not
omitted, because `context::Contents` has no `skip_serializing_if`
attribute. -/
theorem c5_context_emits_null_block_id :
    context.Contents.toJson context.Contents.new =
      Json.obj [("elements", Json.arr []), ("block_id", Json.null)] :=
  rfl

/-- C5 amended: only `actions::Contents` omits its absent optional field
(`block_id` carries `skip_serializing_if = "Option::is_none"`); the Context
and Input block structs have no serde attributes on their optional fields,
so their absent `block_id`, `hint` and `optional` serialize as explicit
`null` members. -/
theorem c5_optional_field_serialization :
    (∀ els : List actions.BlockElement,
      actions.Contents.toJson { elements := els, block_id := none } =
        Json.obj [("elements", Json.arr (els.map actions.BlockElement.toJson))] ∧
      Json.objKeys (actions.Contents.toJson { elements := els, block_id := none })
        = ["elements"]) ∧
    (∀ els : List context.Compose,
      context.Contents.toJson { elements := els, block_id := none } =
        Json.obj [("elements", Json.arr (els.map context.Compose.toJson)),
                  ("block_id", Json.null)]) ∧
    (∀ (lbl : Text) (el : input.InputElement),
      input.Contents.toJson (input.Contents.from_label_and_element lbl el) =
        Json.obj [("label", Text.toJson lbl),
                  ("element", input.InputElement.toJson el),
                  ("block_id", Json.null),
                  ("hint", Json.null),
                  ("optional", Json.null)]) := by
  refine ⟨fun els => ⟨rfl, rfl⟩, fun els => rfl, fun lbl el => rfl⟩

/-- C7: narrowing round-trip — every text object widened into the general
compose family narrows back into the Context family as itself, and every
Actions-supported element widened into the general element family narrows
back as itself. -/
theorem c7_narrow_widen_roundtrip :
    (∀ t : Text,
      context.Compose.tryFrom (compose.Compose.Text t)
        = Except.ok (context.Compose.Text t)) ∧
    (∀ x : actions.BlockElement,
      actions.BlockElement.tryFrom x.widen = Except.ok x) := by
  refine ⟨fun t => rfl, ?_⟩
  intro x
  cases x <;> rfl

/-- C9: incremental appends — appending three options to a fresh checkbox
builder finalizes to exactly those options in append order; an append after
a bulk `options` call appends to the existing collection rather than
replacing it; and `context::Contents::with_element` pushes onto the
existing element vector, so three chained calls on a new block yield those
three elements in call order. -/
theorem c9_append_semantics :
    (∀ (a : String) (x y z : elems.checkboxes.Opt),
      ((((elems.checkboxes.build.CheckboxesBuilder.new.setActionId a).addOption x).addOption
          y).addOption z).build =
        some { action_id := a, options := [x, y, z],
               initial_options := none, confirm := none }) ∧
    (∀ (A O : elems.checkboxes.build.Marker)
       (b : elems.checkboxes.build.CheckboxesBuilder A O)
       (os : List elems.checkboxes.Opt) (o : elems.checkboxes.Opt),
      ((b.setOptions os).addOption o).options = some (os ++ [o])) ∧
    (∀ (c : context.Contents) (e : context.Compose),
      (c.with_element e).elements = c.elements ++ [e]) ∧
    (∀ (e1 e2 e3 : context.Compose),
      ((context.Contents.new.with_element e1).with_element e2).with_element e3 =
        { elements := [e1, e2, e3], block_id := none }) := by
  refine ⟨fun a x y z => rfl, fun A O b os o => rfl, fun c e => rfl,
    fun e1 e2 e3 => rfl⟩

/-- `finishValidate` on a nonempty violation list reports exactly that
list. -/
theorem finishValidate_of_ne_nil {l : List (String × ValidationError)}
    (h : l ≠ []) : finishValidate l = Except.error l := by
  cases l with
  | nil => exact absurd rfl h
  | cons a t => rfl

namespace elems.checkboxes.build

/-- Any builder value producible through the public checkbox-builder API has
its `A` marker equal to `Set` exactly when the `action_id` method has been
called, its `O` marker equal to `Set` exactly when `options` or `option` has
been called, and the corresponding data field populated whenever the marker
is `Set`. -/
theorem traced_marker_invariant {ca co : Bool} {A O : Marker}
    {b : CheckboxesBuilder A O} (h : Traced ca co A O b) :
    ((A = Marker.Set) ↔ ca = true) ∧ ((O = Marker.Set) ↔ co = true) ∧
    (A = Marker.Set → b.action_id.isSome = true) ∧
    (O = Marker.Set → b.options.isSome = true) := by
  induction h with
  | new => simp [CheckboxesBuilder.new]
  | action_id b s h ih =>
      exact ⟨by simp, ih.2.1,
        fun _ => by simp [CheckboxesBuilder.setActionId],
        fun hO => by
          simpa [CheckboxesBuilder.setActionId] using ih.2.2.2 hO⟩
  | options b os h ih =>
      exact ⟨ih.1, by simp,
        fun hA => by
          simpa [CheckboxesBuilder.setOptions] using ih.2.2.1 hA,
        fun _ => by simp [CheckboxesBuilder.setOptions]⟩
  | option b o h ih =>
      exact ⟨ih.1, by simp,
        fun hA => by
          simpa [CheckboxesBuilder.addOption] using ih.2.2.1 hA,
        fun _ => by simp [CheckboxesBuilder.addOption]⟩
  | initial_options b os h ih =>
      exact ⟨ih.1, ih.2.1,
        fun hA => by
          simpa [CheckboxesBuilder.setInitialOptions] using ih.2.2.1 hA,
        fun hO => by
          simpa [CheckboxesBuilder.setInitialOptions] using ih.2.2.2 hO⟩
  | confirm b c h ih =>
      exact ⟨ih.1, ih.2.1,
        fun hA => by
          simpa [CheckboxesBuilder.setConfirm] using ih.2.2.1 hA,
        fun hO => by
          simpa [CheckboxesBuilder.setConfirm] using ih.2.2.2 hO⟩

/-- C3: `build` is declared only on the fully-marked builder state, and any
builder in that state reachable through the public API (the `Traced`
relation) has had both required setters called at least once; both internal
`Option` fields are populated, so the `None` branches of the two unwraps in
`build` are unreachable, and `build` merely assembles the four stored
fields into a `Checkboxes` value without any content validation. -/
theorem c3_checkboxes_build_reachable_and_infallible {ca co : Bool}
    (b : CheckboxesBuilder Marker.Set Marker.Set)
    (h : Traced ca co Marker.Set Marker.Set b) :
    ca = true ∧ co = true ∧
    b.action_id.isSome = true ∧ b.options.isSome = true ∧
    ∀ (a : String) (o : List Opt), b.action_id = some a → b.options = some o →
      b.build = some { action_id := a, options := o,
                       initial_options := b.initial_options,
                       confirm := b.confirm } := by
  have inv := traced_marker_invariant h
  refine ⟨inv.1.1 rfl, inv.2.1.1 rfl, inv.2.2.1 rfl, inv.2.2.2 rfl, ?_⟩
  intro a o ha ho
  simp [CheckboxesBuilder.build, ha, ho]

/-- The concrete builder chain used to witness C3. -/
def c3Builder : CheckboxesBuilder Marker.Set Marker.Set :=
  (CheckboxesBuilder.new.setActionId "state_picker").setOptions
    [{ text := Text.plain "Arizona", value := "AZ" }]

/-- C3 witness: the concrete chain `new → action_id → options` reaches the
fully-marked state and `build` assembles exactly the supplied fields. -/
theorem c3_checkboxes_build_witness :
    true = true ∧ true = true ∧
    c3Builder.action_id.isSome = true ∧ c3Builder.options.isSome = true ∧
    c3Builder.build =
      some { action_id := "state_picker",
             options := [{ text := Text.plain "Arizona", value := "AZ" }],
             initial_options := none, confirm := none } :=
  have h := c3_checkboxes_build_reachable_and_infallible c3Builder
    (Traced.options _ _ (Traced.action_id _ _ Traced.new))
  ⟨h.1, h.2.1, h.2.2.1, h.2.2.2.1, h.2.2.2.2 _ _ rfl rfl⟩

end elems.checkboxes.build

/-- A string of `n` repeated characters, for concrete boundary inputs. -/
def longStr (n : Nat) : String := String.mk (List.replicate n 'a')

/-- `longStr n` has exactly `n` characters. -/
theorem longStr_length (n : Nat) : (longStr n).length = n := by
  simp [longStr, String.length]

/-- The inner text of a plain text object is the given string. -/
theorem text_plain_text (s : String) : (Text.plain s).text = s := rfl

/-- C4: an Input block whose label exceeds 2000 characters, whose hint
exceeds 2000 characters and whose `block_id` exceeds 255 characters
simultaneously validates to a report with exactly three violations, one per
offending field, keyed `label`, `block_id` and `hint` — no short-circuit
after the first failing field. -/
theorem c4_input_aggregates_three_violations (c : input.Contents)
    (ht : Text) (bid : String)
    (hhint : c.hint = some ht) (hbid : c.block_id = some bid)
    (hl : 2000 < c.label.text.length)
    (hhl : 2000 < ht.text.length)
    (hbl : 255 < bid.length) :
    isErr c.validate = true ∧
    violationKeys c.validate = ["label", "block_id", "hint"] := by
  constructor <;>
    simp [input.Contents.validate, input.validation.text_max_len_2k,
      compose.validation.text_max_len, onOpt, lengthMax, fieldErr,
      finishValidate, isErr, violationKeys, hhint, hbid, hl, hhl, hbl]

/-- The concrete Input block used to witness C4: a 2001-character label, a
2001-character hint and a 256-character block id. -/
def c4Input : input.Contents :=
  { label := Text.plain (longStr 2001),
    element := input.InputElement.PlainInput,
    block_id := some (longStr 256),
    hint := some (Text.plain (longStr 2001)),
    optional := none }

/-- C4 witness: the three-violation report on the concrete Input block. -/
theorem c4_input_witness :
    isErr c4Input.validate = true ∧
    violationKeys c4Input.validate = ["label", "block_id", "hint"] :=
  c4_input_aggregates_three_violations c4Input (Text.plain (longStr 2001))
    (longStr 256) rfl rfl
    (by simp [c4Input, text_plain_text, longStr_length])
    (by simp [text_plain_text, longStr_length])
    (by simp [longStr_length])

/-- C8: the 2000-character text constraint (`text_max_len` with limit 2000,
used for the Input block's label and hint via `text_max_len_2k`) accepts a
text of exactly 2000 characters and rejects one of 2001 characters. -/
theorem c8_text_max_len_2000_boundary (t2000 t2001 : Text)
    (h0 : t2000.text.length = 2000) (h1 : t2001.text.length = 2001) :
    compose.validation.text_max_len t2000 2000 = Except.ok () ∧
    input.validation.text_max_len_2k t2000 = Except.ok () ∧
    constraintFails (compose.validation.text_max_len t2001 2000) = true ∧
    constraintFails (input.validation.text_max_len_2k t2001) = true := by
  refine ⟨?_, ?_, ?_, ?_⟩ <;>
    simp [compose.validation.text_max_len, input.validation.text_max_len_2k,
      constraintFails, h0, h1]

/-- C8 witness: the boundary at concrete 2000- and 2001-character plain
texts. -/
theorem c8_text_max_len_witness :
    compose.validation.text_max_len (Text.plain (longStr 2000)) 2000
      = Except.ok () ∧
    input.validation.text_max_len_2k (Text.plain (longStr 2000))
      = Except.ok () ∧
    constraintFails
      (compose.validation.text_max_len (Text.plain (longStr 2001)) 2000)
      = true ∧
    constraintFails
      (input.validation.text_max_len_2k (Text.plain (longStr 2001))) = true :=
  c8_text_max_len_2000_boundary (Text.plain (longStr 2000))
    (Text.plain (longStr 2001))
    (by simp [text_plain_text, longStr_length])
    (by simp [text_plain_text, longStr_length])

/-- When every general element of a list narrows to the paired restricted
element, the collecting conversion succeeds with the narrowed list. -/
theorem actions_collect_forall2 {l : List block_elements.BlockElement}
    {as' : List actions.BlockElement}
    (h : List.Forall₂
      (fun e a => actions.BlockElement.tryFrom e = Except.ok a) l as') :
    actions.collectTryFrom l = Except.ok as' := by
  induction h with
  | nil => rfl
  | cons h1 h2 ih => simp [actions.collectTryFrom, h1, ih]

/-- When a prefix narrows elementwise and the next element fails, the
collecting conversion returns that element's error. -/
theorem actions_collect_first_error {l1 : List block_elements.BlockElement}
    {as1 : List actions.BlockElement}
    (h : List.Forall₂
      (fun e a => actions.BlockElement.tryFrom e = Except.ok a) l1 as1)
    {e : block_elements.BlockElement} {err : Unit}
    {l2 : List block_elements.BlockElement}
    (he : actions.BlockElement.tryFrom e = Except.error err) :
    actions.collectTryFrom (l1 ++ e :: l2) = Except.error err := by
  induction h with
  | nil => simp [actions.collectTryFrom, he]
  | cons h1 h2 ih => simp [actions.collectTryFrom, h1, ih]

/-- Narrowing a list of general composition objects into the Context family
always succeeds (the general family has only the accepted `Text` kind). -/
theorem context_collect_total (l : List compose.Compose) :
    context.collectTryFrom l =
      Except.ok (l.map (fun c => match c with
        | compose.Compose.Text t => context.Compose.Text t)) := by
  induction l with
  | nil => rfl
  | cons c t ih =>
      cases c
      simp [context.collectTryFrom, context.Compose.tryFrom, ih]

/-- C6: converting a whole list of general elements into a restricted
container family converts every element in order when all are in-family
(`TryFrom<Vec<block_elements::BlockElement>> for actions::Contents`, and
`context::Contents::from_elements`, whose general family is all-accepted),
and otherwise fails with exactly the error of the first out-of-family
element, short-circuiting instead of aggregating. -/
theorem c6_collection_narrowing_short_circuits :
    (∀ (l : List block_elements.BlockElement)
       (as' : List actions.BlockElement),
      List.Forall₂
        (fun e a => actions.BlockElement.tryFrom e = Except.ok a) l as' →
      actions.Contents.tryFromVec l =
        Except.ok (actions.Contents.fromElements as')) ∧
    (∀ (l1 : List block_elements.BlockElement)
       (as1 : List actions.BlockElement)
       (e : block_elements.BlockElement) (err : Unit)
       (l2 : List block_elements.BlockElement),
      List.Forall₂
        (fun x a => actions.BlockElement.tryFrom x = Except.ok a) l1 as1 →
      actions.BlockElement.tryFrom e = Except.error err →
      actions.Contents.tryFromVec (l1 ++ e :: l2) = Except.error err) ∧
    (∀ l : List compose.Compose,
      context.Contents.from_elements l =
        Except.ok (context.Contents.fromComposeVec
          (l.map (fun c => match c with
            | compose.Compose.Text t => context.Compose.Text t)))) := by
  refine ⟨?_, ?_, ?_⟩
  · intro l as' h
    simp [actions.Contents.tryFromVec, actions_collect_forall2 h, Except.map]
  · intro l1 as1 e err l2 h he
    simp [actions.Contents.tryFromVec, actions_collect_first_error h he,
      Except.map]
  · intro l
    simp [context.Contents.from_elements, context_collect_total, Except.map]

/-- C6 witness: a fully in-family list converts in order; putting the
out-of-family `Image` after an in-family prefix fails with its (unit)
error; a Context conversion succeeds. -/
theorem c6_collection_witness :
    actions.Contents.tryFromVec
        [block_elements.BlockElement.Checkboxes,
         block_elements.BlockElement.Button { text := "go", action_id := "123" }] =
      Except.ok (actions.Contents.fromElements
        [actions.BlockElement.Checkboxes,
         actions.BlockElement.Button { text := "go", action_id := "123" }]) ∧
    actions.Contents.tryFromVec
        [block_elements.BlockElement.Checkboxes,
         block_elements.BlockElement.Image,
         block_elements.BlockElement.MultiSelect] =
      Except.error () ∧
    context.Contents.from_elements [compose.Compose.Text (Text.plain "hi")] =
      Except.ok (context.Contents.fromComposeVec
        [context.Compose.Text (Text.plain "hi")]) :=
  ⟨c6_collection_narrowing_short_circuits.1 _ _
     (List.Forall₂.cons rfl (List.Forall₂.cons rfl List.Forall₂.nil)),
   c6_collection_narrowing_short_circuits.2.1
     [block_elements.BlockElement.Checkboxes] [actions.BlockElement.Checkboxes]
     block_elements.BlockElement.Image ()
     [block_elements.BlockElement.MultiSelect]
     (List.Forall₂.cons rfl List.Forall₂.nil) rfl,
   c6_collection_narrowing_short_circuits.2.2 _⟩

/-- C10: on the multi-select `User` and `Conversation` elements the
`range(min = 1)` constraint on `max_selected_items` means `validate`
returns `Err` whenever the field is `Some(0)` (the violation is keyed
`max_selected_items`), while `None` or `Some(n)` with `n >= 1` contributes
no violation for that field. -/
theorem c10_max_selected_items_range (u : elems.select.multi.User)
    (v : elems.select.multi.Conversation) :
    (u.max_selected_items = some 0 →
      fieldErr "max_selected_items" (onOpt rangeMin1 u.max_selected_items) =
        [("max_selected_items", { code := "range", message := none })] ∧
      isErr u.validate = true) ∧
    (∀ n, u.max_selected_items = some n → 1 ≤ n →
      fieldErr "max_selected_items" (onOpt rangeMin1 u.max_selected_items) = []) ∧
    (u.max_selected_items = none →
      fieldErr "max_selected_items" (onOpt rangeMin1 u.max_selected_items) = []) ∧
    (v.max_selected_items = some 0 →
      fieldErr "max_selected_items" (onOpt rangeMin1 v.max_selected_items) =
        [("max_selected_items", { code := "range", message := none })] ∧
      isErr v.validate = true) ∧
    (∀ n, v.max_selected_items = some n → 1 ≤ n →
      fieldErr "max_selected_items" (onOpt rangeMin1 v.max_selected_items) = []) ∧
    (v.max_selected_items = none →
      fieldErr "max_selected_items" (onOpt rangeMin1 v.max_selected_items) = []) := by
  refine ⟨?_, ?_, ?_, ?_, ?_, ?_⟩
  · intro hms
    refine ⟨by simp [hms, onOpt, rangeMin1, fieldErr], ?_⟩
    rw [elems.select.multi.User.validate, hms]
    rw [show fieldErr "max_selected_items" (onOpt rangeMin1 (some 0)) =
      [("max_selected_items", { code := "range", message := none })] from
      by simp [onOpt, rangeMin1, fieldErr]]
    rw [finishValidate_of_ne_nil (by simp)]
    rfl
  · intro n hms hn
    have hlt : ¬ (n < 1) := by omega
    simp [hms, onOpt, rangeMin1, fieldErr, hlt]
  · intro hms
    simp [hms, onOpt, fieldErr]
  · intro hms
    refine ⟨by simp [hms, onOpt, rangeMin1, fieldErr], ?_⟩
    rw [elems.select.multi.Conversation.validate, hms]
    rw [show fieldErr "max_selected_items" (onOpt rangeMin1 (some 0)) =
      [("max_selected_items", { code := "range", message := none })] from
      by simp [onOpt, rangeMin1, fieldErr]]
    rw [finishValidate_of_ne_nil (by simp)]
    rfl
  · intro n hms hn
    have hlt : ¬ (n < 1) := by omega
    simp [hms, onOpt, rangeMin1, fieldErr, hlt]
  · intro hms
    simp [hms, onOpt, fieldErr]

/-- Concrete multi-select `User` elements for the C10 witness. -/
def c10User (m : Option Nat) : elems.select.multi.User :=
  { placeholder := Text.plain "pick users", action_id := "u1",
    confirm := none, initial_users := none, max_selected_items := m }

/-- Concrete multi-select `Conversation` elements for the C10 witness. -/
def c10Conversation (m : Option Nat) : elems.select.multi.Conversation :=
  { placeholder := Text.plain "pick convos", action_id := "c1",
    confirm := none, initial_channels := none,
    default_to_current_conversation := none, filter := none,
    max_selected_items := m }

/-- C10 witness: the three cases at concrete elements — `Some 0` makes
`validate` fail with the `max_selected_items` violation, `Some 1` and
`None` contribute none. -/
theorem c10_max_selected_items_witness :
    (fieldErr "max_selected_items"
        (onOpt rangeMin1 (c10User (some 0)).max_selected_items) =
        [("max_selected_items", { code := "range", message := none })] ∧
      isErr (c10User (some 0)).validate = true) ∧
    fieldErr "max_selected_items"
      (onOpt rangeMin1 (c10User (some 1)).max_selected_items) = [] ∧
    fieldErr "max_selected_items"
      (onOpt rangeMin1 (c10User none).max_selected_items) = [] ∧
    (fieldErr "max_selected_items"
        (onOpt rangeMin1 (c10Conversation (some 0)).max_selected_items) =
        [("max_selected_items", { code := "range", message := none })] ∧
      isErr (c10Conversation (some 0)).validate = true) ∧
    fieldErr "max_selected_items"
      (onOpt rangeMin1 (c10Conversation (some 1)).max_selected_items) = [] ∧
    fieldErr "max_selected_items"
      (onOpt rangeMin1 (c10Conversation none).max_selected_items) = [] :=
  ⟨(c10_max_selected_items_range (c10User (some 0))
      (c10Conversation (some 0))).1 rfl,
   (c10_max_selected_items_range (c10User (some 1))
      (c10Conversation (some 1))).2.1 1 rfl (le_refl 1),
   (c10_max_selected_items_range (c10User none)
      (c10Conversation none)).2.2.1 rfl,
   (c10_max_selected_items_range (c10User (some 0))
      (c10Conversation (some 0))).2.2.2.1 rfl,
   (c10_max_selected_items_range (c10User (some 1))
      (c10Conversation (some 1))).2.2.2.2.1 1 rfl (le_refl 1),
   (c10_max_selected_items_range (c10User none)
      (c10Conversation none)).2.2.2.2.2 rfl⟩

end SlackBlocks
